import Mathlib

/-!
# Verification of the cat-api-prototype cache-aside layer

Shallow embedding of the repository's cache adapter (`src/cache.py`,
class `CacheManager`) and of the HTTP handlers that coordinate the cache
with the entity store (`src/main.py`), together with theorems settling
the specification's claims about them.

Modelling conventions:

* Python values that flow through the cache are modelled by `JValue`.
  Python's `None` is `JValue.null`; this single constructor plays both
  roles `None` plays in the source (absent result and JSON null), which
  is exactly the collapse the source exhibits (`get` returns `None` both
  on a miss and when the stored JSON is `null`).
* The Redis backend (external library) is a key/value store mapping a
  key to a value with an absolute expiry instant.  `CacheManager.set`
  stores `json.dumps(value)` and `CacheManager.get` applies
  `json.loads` to the raw string; since `json.loads (json.dumps v)`
  returns `v` for every JSON-representable value (contract of the
  external `json` library) the store is modelled at the deserialized
  level.  `json.dumps` never returns the empty string, so the source's
  truthiness test `if value:` on the raw reply coincides with "the key
  is live in the backend", which is how it is modelled.
* Each backend call may fail (connection refused, timeout, ...); a
  Boolean `fail` parameter per backend call says whether that call
  raises.  The adapter's `try/except` blocks appear as `match` on the
  `Except` result of the backend primitive.
* `async` sequencing inside one request is straight-line (the source
  awaits every call); time is an explicit `now : Nat` parameter.
-/

set_option autoImplicit false

namespace CatApi

/-- JSON-compatible Python values (`scalar, mapping, or ordered sequence`
per the spec's data model).  Numbers are modelled by `Int`; no handler
performs numeric computation on cached values, so the choice of numeric
carrier is inert. -/
inductive JValue where
  | null
  | bool (b : Bool)
  | num (n : Int)
  | str (s : String)
  | arr (elems : List JValue)
  | obj (fields : List (String × JValue))
deriving Repr

/-- `True` exactly on `JValue.null`, i.e. the Python test `x is None`. -/
def JValue.isNull : JValue → Bool
  | .null => true
  | _ => false

/-- Exceptions that can cross the boundaries modelled here: a backend
(Redis) error, or an error raised by a `get_or_set` producer. -/
inductive PyErr where
  | connectionError
  | producerError (msg : String)
deriving Repr, DecidableEq

/-- State of the Redis logical database: each live entry is a key, the
(deserialized) stored value, and its absolute expiry instant. -/
structure RedisState where
  entries : List (String × JValue × Nat)
deriving Repr

/-- First entry for `key`, if any (redis keys are unique; all mutation
paths below keep at most one entry per key). -/
def RedisState.lookup (st : RedisState) (key : String) : Option (JValue × Nat) :=
  (st.entries.find? (fun e => e.1 == key)).map (fun e => e.2)

/-- Backend primitive `GET key`: `none` when the key is absent or
expired (Redis treats an expired key as gone). -/
def redisGet (st : RedisState) (now : Nat) (fail : Bool) (key : String) :
    Except PyErr (Option JValue) :=
  if fail then .error .connectionError
  else
    match st.lookup key with
    | some (v, exp) => if now < exp then .ok (some v) else .ok none
    | none => .ok none

/-- Backend primitive `SETEX key ttl value`: replaces any previous entry
for `key` and sets expiry `now + ttl`. -/
def redisSetex (st : RedisState) (now : Nat) (fail : Bool) (key : String)
    (v : JValue) (ttl : Nat) : Except PyErr RedisState :=
  if fail then .error .connectionError
  else .ok ⟨(key, v, now + ttl) :: st.entries.filter (fun e => !(e.1 == key))⟩

/-- Backend primitive `EXISTS key`: count of live keys matching. -/
def redisExists (st : RedisState) (now : Nat) (fail : Bool) (key : String) :
    Except PyErr Nat :=
  if fail then .error .connectionError
  else
    match st.lookup key with
    | some (_, exp) => if now < exp then .ok 1 else .ok 0
    | none => .ok 0

/-- Backend primitive `DEL key`: returns how many keys were removed. -/
def redisDelete (st : RedisState) (now : Nat) (fail : Bool) (key : String) :
    Except PyErr (Nat × RedisState) :=
  if fail then .error .connectionError
  else
    let live : Nat :=
      match st.lookup key with
      | some (_, exp) => if now < exp then 1 else 0
      | none => 0
    .ok (live, ⟨st.entries.filter (fun e => !(e.1 == key))⟩)

/-- Backend primitive `FLUSHDB`. -/
def redisFlush (_st : RedisState) (fail : Bool) : Except PyErr RedisState :=
  if fail then .error .connectionError
  else .ok ⟨[]⟩

/-- Configuration and connection state of `cache.CacheManager`: `enabled` is the
`CACHE_ENABLED` flag read in `__init__`; `connected` is
`redis_client is not None`. -/
structure CacheManager where
  enabled : Bool
  connected : Bool
deriving Repr, DecidableEq

/-- `CacheManager.connect` (src/cache.py): early-returns when disabled;
otherwise builds the client and pings it; on any exception the client is
reset to `None`. -/
def CacheManager.connect (cm : CacheManager) (fail : Bool) : CacheManager :=
  if !cm.enabled then ⟨cm.enabled, false⟩
  else if fail then ⟨cm.enabled, false⟩
  else ⟨cm.enabled, true⟩

/-- `CacheManager.get` (src/cache.py): `None` when disabled or
disconnected; otherwise `GET key`, returning `json.loads value` when the
raw reply is truthy and `None` on a miss; any exception is caught and
yields `None`.  `JValue.null` is Python `None`. -/
def CacheManager.get (cm : CacheManager) (st : RedisState) (now : Nat)
    (fail : Bool) (key : String) : JValue :=
  if !cm.enabled || !cm.connected then .null
  else
    match redisGet st now fail key with
    | .error _ => .null
    | .ok (some v) => v
    | .ok none => .null

/-- `CacheManager.set` (src/cache.py): `False` when disabled or
disconnected; otherwise serializes and `SETEX`es the value, returning
`True`; any exception is caught and yields `False` (no mutation, since
`SETEX` is atomic). -/
def CacheManager.set (cm : CacheManager) (st : RedisState) (now : Nat)
    (fail : Bool) (key : String) (v : JValue) (ttl : Nat) : Bool × RedisState :=
  if !cm.enabled || !cm.connected then (false, st)
  else
    match redisSetex st now fail key v ttl with
    | .error _ => (false, st)
    | .ok st' => (true, st')

/-- `CacheManager.exists` (src/cache.py): `result > 0`, `False` on any
failure or when disabled/disconnected. -/
def CacheManager.existsKey (cm : CacheManager) (st : RedisState) (now : Nat)
    (fail : Bool) (key : String) : Bool :=
  if !cm.enabled || !cm.connected then false
  else
    match redisExists st now fail key with
    | .error _ => false
    | .ok n => decide (0 < n)

/-- `CacheManager.delete` (src/cache.py): `True` only when a key was
actually removed (`result > 0`); `False` on failure or when
disabled/disconnected. -/
def CacheManager.delete (cm : CacheManager) (st : RedisState) (now : Nat)
    (fail : Bool) (key : String) : Bool × RedisState :=
  if !cm.enabled || !cm.connected then (false, st)
  else
    match redisDelete st now fail key with
    | .error _ => (false, st)
    | .ok (n, st') => (decide (0 < n), st')

/-- `CacheManager.flush` (src/cache.py): clears the logical database;
`False` on failure or when disabled/disconnected. -/
def CacheManager.flush (cm : CacheManager) (st : RedisState) (fail : Bool) :
    Bool × RedisState :=
  if !cm.enabled || !cm.connected then (false, st)
  else
    match redisFlush st fail with
    | .error _ => (false, st)
    | .ok st' => (true, st')

/-- Result of `CacheManager.get_or_set`: the returned value (or the
producer's uncaught exception), the backend state afterwards, and
whether control reached `result = await callback()`. -/
structure GetOrSetOut where
  result : Except PyErr JValue
  state : RedisState
  producerInvoked : Bool
deriving Repr

/-- `CacheManager.get_or_set` (src/cache.py): return the cached value if
`cached is not None`; otherwise invoke the producer (whose exception
propagates uncaught), store its result, and return it.  The producer is
modelled by the outcome `callback` of its single invocation. -/
def CacheManager.get_or_set (cm : CacheManager) (st : RedisState) (now : Nat)
    (failGet failSet : Bool) (key : String) (callback : Except PyErr JValue)
    (ttl : Nat) : GetOrSetOut :=
  let cached := cm.get st now failGet key
  if !cached.isNull then ⟨.ok cached, st, false⟩
  else
    match callback with
    | .error e => ⟨.error e, st, true⟩
    | .ok result => ⟨.ok result, (cm.set st now failSet key result ttl).2, true⟩

/-! ## Entity model and store (src/cat_model.py; store semantics per spec §4.3) -/

/-- `cat_model.Cat` (src/cat_model.py): id (server-assigned), name, age,
weight, breed.  `weight` is a `float` in the source; no arithmetic is
ever performed on it by the code under study, so it is carried by an
inert `Int` here. -/
structure Cat where
  id : Nat
  name : String
  age : Int
  weight : Int
  breed : String
deriving Repr, DecidableEq

/-- FastAPI's JSON rendering of a `Cat` row. -/
def Cat.toJValue (c : Cat) : JValue :=
  .obj [("id", .num c.id), ("name", .str c.name), ("age", .num c.age),
        ("weight", .num c.weight), ("breed", .str c.breed)]

/-- The relational store (external collaborator, spec §4.3): the rows of
the `cat` table plus the autoincrement counter for the primary key. -/
structure DB where
  cats : List Cat
  nextId : Nat
deriving Repr, DecidableEq

/-- `findById` on the store: `SELECT ... WHERE id = cat_id`, first row. -/
def DB.findById (db : DB) (cat_id : Nat) : Option Cat :=
  db.cats.find? (fun c => c.id == cat_id)

/-- Modelled from the spec: `cat_schema.CatSchema` is imported by
`src/main.py` but its module is not among the sources.  Per the spec,
`PATCH /cats/{id}` is a partial-field update (`model_dump(exclude_unset=True)`
in the handler), so each field is optionally present. -/
structure CatSchema where
  name : Option String
  age : Option Int
  weight : Option Int
  breed : Option String
deriving Repr, DecidableEq

/-- The `setattr` loop of `update_cat`: overwrite exactly the fields the
request set. -/
def applyPatch (c : Cat) (p : CatSchema) : Cat :=
  ⟨c.id, p.name.getD c.name, p.age.getD c.age, p.weight.getD c.weight,
   p.breed.getD c.breed⟩

/-! ## Handlers (src/main.py) -/

/-- Observable events of one request, in program order: the store
transaction commit, and each call into the cache adapter. -/
inductive Event where
  | storeCommit
  | cacheGet (key : String)
  | cacheSet (key : String)
  | cacheDelete (key : String)
deriving Repr, DecidableEq

/-- HTTP outcome of a handler: a 200 JSON body, or the 404 raised via
`HTTPException(status_code=404, ...)`. -/
inductive Response where
  | ok (body : JValue)
  | notFound (detail : String)
deriving Repr

/-- Result of running one handler: the response, the store and cache
states afterwards, and the event trace. -/
structure HandlerOut where
  response : Response
  db : DB
  cache : RedisState
  trace : List Event
deriving Repr

/-- `POST /cats` (`create_cat`, src/main.py): insert the row, commit,
then invalidate `cats:all`; return the created entity.  The body is the
already-validated schema payload (request validation is the excluded
framework layer). -/
def create_cat (db : DB) (cm : CacheManager) (st : RedisState) (now : Nat)
    (failDelete : Bool) (name : String) (age weight : Int) (breed : String) :
    HandlerOut :=
  let cat : Cat := ⟨db.nextId, name, age, weight, breed⟩
  let db' : DB := ⟨db.cats ++ [cat], db.nextId + 1⟩
  let st' := (cm.delete st now failDelete "cats:all").2
  ⟨.ok cat.toJValue, db', st', [.storeCommit, .cacheDelete "cats:all"]⟩

/-- `DELETE /cats/{cat_id}` (`delete_cat`, src/main.py): unconditional
`DELETE ... WHERE id = cat_id`, commit, invalidate `cats:all`, and
return the confirmation message — whether or not a row existed. -/
def delete_cat (db : DB) (cm : CacheManager) (st : RedisState) (now : Nat)
    (failDelete : Bool) (cat_id : Nat) : HandlerOut :=
  let db' : DB := ⟨db.cats.filter (fun c => !(c.id == cat_id)), db.nextId⟩
  let st' := (cm.delete st now failDelete "cats:all").2
  ⟨.ok (.obj [("message",
      .str ("Cat with id \x27" ++ toString cat_id ++ "\x27 was deleted"))]),
   db', st', [.storeCommit, .cacheDelete "cats:all"]⟩

/-- `GET /` (`get_cats`, src/main.py): serve `cats:all` from cache when
`cached_cats is not None`; otherwise read all rows, populate the cache
with TTL 300, and return them. -/
def get_cats (db : DB) (cm : CacheManager) (st : RedisState) (now : Nat)
    (failGet failSet : Bool) : HandlerOut :=
  let cached := cm.get st now failGet "cats:all"
  if !cached.isNull then
    ⟨.ok cached, db, st, [.cacheGet "cats:all"]⟩
  else
    let cats : JValue := .arr (db.cats.map Cat.toJValue)
    let st' := (cm.set st now failSet "cats:all" cats 300).2
    ⟨.ok cats, db, st', [.cacheGet "cats:all", .cacheSet "cats:all"]⟩

/-- `PATCH /cats/{cat_id}` (`update_cat`, src/main.py): 404 (no commit,
no cache call) when the row is absent; otherwise apply the partial
update, commit, then invalidate `cats:all` and `cat:{cat_id}`. -/
def update_cat (db : DB) (cm : CacheManager) (st : RedisState) (now : Nat)
    (failDel1 failDel2 : Bool) (cat_id : Nat) (patch : CatSchema) : HandlerOut :=
  match db.findById cat_id with
  | none => ⟨.notFound "Cat not found", db, st, []⟩
  | some cat =>
      let updated := applyPatch cat patch
      let db' : DB := ⟨db.cats.map (fun c => if c.id == cat_id then updated else c),
                       db.nextId⟩
      let st1 := (cm.delete st now failDel1 "cats:all").2
      let st2 := (cm.delete st1 now failDel2 ("cat:" ++ toString cat_id)).2
      ⟨.ok updated.toJValue, db', st2,
       [.storeCommit, .cacheDelete "cats:all",
        .cacheDelete ("cat:" ++ toString cat_id)]⟩

/-- `GET /cats/{cat_id}` (`get_cat_by_id`, src/main.py): serve
`cat:{cat_id}` from cache when `cached_cat is not None`; otherwise read
the row, 404 when absent (without populating the cache), else populate
with TTL 600 and return it. -/
def get_cat_by_id (db : DB) (cm : CacheManager) (st : RedisState) (now : Nat)
    (failGet failSet : Bool) (cat_id : Nat) : HandlerOut :=
  let key := "cat:" ++ toString cat_id
  let cached := cm.get st now failGet key
  if !cached.isNull then
    ⟨.ok cached, db, st, [.cacheGet key]⟩
  else
    match db.findById cat_id with
    | none => ⟨.notFound "Cat not found", db, st, [.cacheGet key]⟩
    | some cat =>
        let st' := (cm.set st now failSet key cat.toJValue 600).2
        ⟨.ok cat.toJValue, db, st', [.cacheGet key, .cacheSet key]⟩

/-- `GET /cats/search` (`get_cat_by_name`, src/main.py): serve
`cat:name:{cat_name}` from cache when present; otherwise read all rows
with that name, populate with TTL 300, and return them. -/
def get_cat_by_name (db : DB) (cm : CacheManager) (st : RedisState) (now : Nat)
    (failGet failSet : Bool) (cat_name : String) : HandlerOut :=
  let key := "cat:name:" ++ cat_name
  let cached := cm.get st now failGet key
  if !cached.isNull then
    ⟨.ok cached, db, st, [.cacheGet key]⟩
  else
    let cats : JValue := .arr ((db.cats.filter (fun c => c.name == cat_name)).map Cat.toJValue)
    let st' := (cm.set st now failSet key cats 300).2
    ⟨.ok cats, db, st', [.cacheGet key, .cacheSet key]⟩

/-! ## Trace predicates and concrete fixtures -/

/-- The write-path ordering contract of spec §4.2 for one request trace:
the store commit happened, a cache invalidation of `cats:all` was
issued, and every such invalidation occurs strictly after every store
commit of the request (hence never before the mutation, never skipped). -/
def invalidatesAllAfterCommit (tr : List Event) : Prop :=
  Event.storeCommit ∈ tr ∧ Event.cacheDelete "cats:all" ∈ tr ∧
  ∀ i < tr.length, ∀ j < tr.length,
    tr.get? i = some (Event.cacheDelete "cats:all") →
    tr.get? j = some Event.storeCommit → j < i

/-- An enabled, connected cache manager. -/
def cmOn : CacheManager := ⟨true, true⟩

/-- A disabled cache manager (CACHE_ENABLED=false, never connected). -/
def cmOff : CacheManager := ⟨false, false⟩

/-- The spec §8 scenario entity. -/
def tom : Cat := ⟨1, "Tom", 3, 4, "Tabby"⟩

/-- A store holding exactly `tom`. -/
def dbTom : DB := ⟨[tom], 2⟩

/-- An empty cache backend. -/
def stEmpty : RedisState := ⟨[]⟩

/-- Step 1 of the §8 scenario: `GET /cats/1` at time 0, populating
`cat:1` with TTL 600. -/
def runGet1 : HandlerOut := get_cat_by_id dbTom cmOn stEmpty 0 false false 1

/-- Step 2: `DELETE /cats/1` at time 1 on the resulting states. -/
def runDelete1 : HandlerOut := delete_cat runGet1.db cmOn runGet1.cache 1 false 1

/-- Step 3: `GET /cats/1` again at time 2. -/
def runGet2 : HandlerOut := get_cat_by_id runDelete1.db cmOn runDelete1.cache 2 false false 1

/-! ## Claims -/

/-- C1: the claim says `DELETE /cats/{id}` invalidates both `cats:all`
and `cat:{id}`.  The code (src/main.py, `delete_cat`) only deletes
`cats:all`: at the failing input `DELETE /cats/1`, the request trace
contains no cache delete for `cat:1`, and the previously populated
`cat:1` entry survives the deletion, still live with expiry 600. -/
theorem C1_delete_cat_skips_cat_id_key :
    runDelete1.trace = [Event.storeCommit, Event.cacheDelete "cats:all"] ∧
    Event.cacheDelete "cat:1" ∉ runDelete1.trace ∧
    runDelete1.cache.lookup "cat:1" = some (tom.toJValue, 600) := by
  refine ⟨rfl, ?_, rfl⟩
  decide

/-- C2: every successful write — create, delete, and update on an
existing row — issues a cache invalidation of `cats:all`, and every such
invalidation in the request trace occurs strictly after the store
commit: never before the mutation, never skipped on mutation success.
(On the update 404 path no commit happens, so there is no successful
mutation and no invalidation either.) -/
theorem C2_write_invalidates_all_after_commit (db : DB) (cm : CacheManager)
    (st : RedisState) (now : Nat) (fd fd1 fd2 : Bool) (name : String)
    (age weight : Int) (breed : String) (cat_id : Nat) (patch : CatSchema)
    (hhit : (db.findById cat_id).isSome = true) :
    invalidatesAllAfterCommit (create_cat db cm st now fd name age weight breed).trace ∧
    invalidatesAllAfterCommit (delete_cat db cm st now fd cat_id).trace ∧
    invalidatesAllAfterCommit (update_cat db cm st now fd1 fd2 cat_id patch).trace := by
  refine ⟨show invalidatesAllAfterCommit
            [Event.storeCommit, Event.cacheDelete "cats:all"] by
              unfold invalidatesAllAfterCommit; decide,
         show invalidatesAllAfterCommit
            [Event.storeCommit, Event.cacheDelete "cats:all"] by
              unfold invalidatesAllAfterCommit; decide, ?_⟩
  cases hfind : db.findById cat_id with
  | none => rw [hfind] at hhit; simp at hhit
  | some cat =>
      show invalidatesAllAfterCommit (update_cat db cm st now fd1 fd2 cat_id patch).trace
      simp only [update_cat, hfind]
      refine ⟨by simp, by simp, ?_⟩
      intro i hi j hj hieq hjeq
      simp only [List.length_cons, List.length_nil] at hi hj
      interval_cases i <;> interval_cases j <;> simp_all

/-- Witness for C2 on the §8 scenario store (`tom` present, id 1),
an empty patch, and concrete times/flags. -/
theorem C2_write_invalidates_all_after_commit_witness :
    invalidatesAllAfterCommit
      (create_cat dbTom cmOn stEmpty 0 false "Max" 2 5 "Maine").trace ∧
    invalidatesAllAfterCommit (delete_cat dbTom cmOn stEmpty 0 false 1).trace ∧
    invalidatesAllAfterCommit
      (update_cat dbTom cmOn stEmpty 0 false false 1 ⟨none, some 4, none, none⟩).trace :=
  C2_write_invalidates_all_after_commit dbTom cmOn stEmpty 0 false false false
    "Max" 2 5 "Maine" 1 ⟨none, some 4, none, none⟩ (by decide)

/-- C3: with the cache enabled and connected and no backend failure,
`set key v ttl` at time `now` followed by `get key` at any time
`now' < now + ttl` returns exactly the value that was stored
(serialization round-trip law; serialization is the identity at the
`JValue` level of the model). -/
theorem C3_set_get_roundtrip (cm : CacheManager) (st : RedisState)
    (now now' ttl : Nat) (key : String) (v : JValue)
    (hen : cm.enabled = true) (hcon : cm.connected = true)
    (hfresh : now' < now + ttl) :
    cm.get (cm.set st now false key v ttl).2 now' false key = v := by
  simp [CacheManager.get, CacheManager.set, redisGet, redisSetex,
        RedisState.lookup, List.find?, hen, hcon, hfresh]

/-- Witness for C3 at `key = "k"`, `v = "hello"`, `now = 0`, `ttl = 300`,
read back at time 299. -/
theorem C3_set_get_roundtrip_witness :
    cmOn.get (cmOn.set stEmpty 0 false "k" (.str "hello") 300).2 299 false "k"
      = .str "hello" :=
  C3_set_get_roundtrip cmOn stEmpty 0 299 300 "k" (.str "hello") rfl rfl
    (by decide)

/-- C4: two-run noninterference of cache availability.  For every CRUD
endpoint, the run in which the cache is enabled and connected but every
backend call raises (all `fail` flags true, failures swallowed by the
adapter — see C7 for never-raising) produces exactly the same HTTP
response and the same resulting store as the run in which the cache is
disabled, whatever the cache states of either run. -/
theorem C4_cache_failure_noninterference (db : DB) (stF stD : RedisState)
    (now : Nat) (cmF cmD : CacheManager) (b1 b2 : Bool) (name : String)
    (age weight : Int) (breed : String) (cat_id : Nat) (patch : CatSchema)
    (cat_name : String) (henF : cmF.enabled = true)
    (hconF : cmF.connected = true) (hdis : cmD.enabled = false) :
    ((create_cat db cmF stF now true name age weight breed).response =
       (create_cat db cmD stD now b1 name age weight breed).response ∧
     (create_cat db cmF stF now true name age weight breed).db =
       (create_cat db cmD stD now b1 name age weight breed).db) ∧
    ((delete_cat db cmF stF now true cat_id).response =
       (delete_cat db cmD stD now b1 cat_id).response ∧
     (delete_cat db cmF stF now true cat_id).db =
       (delete_cat db cmD stD now b1 cat_id).db) ∧
    ((get_cats db cmF stF now true true).response =
       (get_cats db cmD stD now b1 b2).response ∧
     (get_cats db cmF stF now true true).db =
       (get_cats db cmD stD now b1 b2).db) ∧
    ((update_cat db cmF stF now true true cat_id patch).response =
       (update_cat db cmD stD now b1 b2 cat_id patch).response ∧
     (update_cat db cmF stF now true true cat_id patch).db =
       (update_cat db cmD stD now b1 b2 cat_id patch).db) ∧
    ((get_cat_by_id db cmF stF now true true cat_id).response =
       (get_cat_by_id db cmD stD now b1 b2 cat_id).response ∧
     (get_cat_by_id db cmF stF now true true cat_id).db =
       (get_cat_by_id db cmD stD now b1 b2 cat_id).db) ∧
    ((get_cat_by_name db cmF stF now true true cat_name).response =
       (get_cat_by_name db cmD stD now b1 b2 cat_name).response ∧
     (get_cat_by_name db cmF stF now true true cat_name).db =
       (get_cat_by_name db cmD stD now b1 b2 cat_name).db) := by
  refine ⟨⟨rfl, rfl⟩, ⟨rfl, rfl⟩, ?_, ?_, ?_, ?_⟩
  · constructor <;>
      simp [get_cats, CacheManager.get, redisGet, henF, hconF, hdis,
            JValue.isNull, CacheManager.set]
  · cases hfind : db.findById cat_id <;> constructor <;>
      simp [update_cat, hfind]
  · cases hfind : db.findById cat_id <;> constructor <;>
      simp [get_cat_by_id, CacheManager.get, redisGet, henF, hconF, hdis,
            JValue.isNull, CacheManager.set, hfind]
  · constructor <;>
      simp [get_cat_by_name, CacheManager.get, redisGet, henF, hconF, hdis,
            JValue.isNull, CacheManager.set]

/-- Witness for C4: §8 scenario store, a failing-run cache that even
holds a (stale) `cats:all` entry, versus a disabled cache. -/
theorem C4_cache_failure_noninterference_witness :
    ((create_cat dbTom cmOn ⟨[("cats:all", .str "stale", 100)]⟩ 0 true
        "Max" 2 5 "Maine").response =
       (create_cat dbTom cmOff stEmpty 0 false "Max" 2 5 "Maine").response ∧
     (create_cat dbTom cmOn ⟨[("cats:all", .str "stale", 100)]⟩ 0 true
        "Max" 2 5 "Maine").db =
       (create_cat dbTom cmOff stEmpty 0 false "Max" 2 5 "Maine").db) ∧
    ((delete_cat dbTom cmOn ⟨[("cats:all", .str "stale", 100)]⟩ 0 true 1).response =
       (delete_cat dbTom cmOff stEmpty 0 false 1).response ∧
     (delete_cat dbTom cmOn ⟨[("cats:all", .str "stale", 100)]⟩ 0 true 1).db =
       (delete_cat dbTom cmOff stEmpty 0 false 1).db) ∧
    ((get_cats dbTom cmOn ⟨[("cats:all", .str "stale", 100)]⟩ 0 true true).response =
       (get_cats dbTom cmOff stEmpty 0 false false).response ∧
     (get_cats dbTom cmOn ⟨[("cats:all", .str "stale", 100)]⟩ 0 true true).db =
       (get_cats dbTom cmOff stEmpty 0 false false).db) ∧
    ((update_cat dbTom cmOn ⟨[("cats:all", .str "stale", 100)]⟩ 0 true true 1
        ⟨none, some 4, none, none⟩).response =
       (update_cat dbTom cmOff stEmpty 0 false false 1
        ⟨none, some 4, none, none⟩).response ∧
     (update_cat dbTom cmOn ⟨[("cats:all", .str "stale", 100)]⟩ 0 true true 1
        ⟨none, some 4, none, none⟩).db =
       (update_cat dbTom cmOff stEmpty 0 false false 1
        ⟨none, some 4, none, none⟩).db) ∧
    ((get_cat_by_id dbTom cmOn ⟨[("cats:all", .str "stale", 100)]⟩ 0 true true 1).response =
       (get_cat_by_id dbTom cmOff stEmpty 0 false false 1).response ∧
     (get_cat_by_id dbTom cmOn ⟨[("cats:all", .str "stale", 100)]⟩ 0 true true 1).db =
       (get_cat_by_id dbTom cmOff stEmpty 0 false false 1).db) ∧
    ((get_cat_by_name dbTom cmOn ⟨[("cats:all", .str "stale", 100)]⟩ 0 true true "Tom").response =
       (get_cat_by_name dbTom cmOff stEmpty 0 false false "Tom").response ∧
     (get_cat_by_name dbTom cmOn ⟨[("cats:all", .str "stale", 100)]⟩ 0 true true "Tom").db =
       (get_cat_by_name dbTom cmOff stEmpty 0 false false "Tom").db) :=
  C4_cache_failure_noninterference dbTom ⟨[("cats:all", .str "stale", 100)]⟩
    stEmpty 0 cmOn cmOff false false "Max" 2 5 "Maine" 1
    ⟨none, some 4, none, none⟩ "Tom" rfl rfl rfl

/-- C5, as frozen, is false on the code: it omits the cache-miss
condition of spec §4.2.  Through the API alone — `GET /cats/1`
(populates `cat:1`), `DELETE /cats/1` (removes the row but, per C1,
leaves `cat:1` cached) — the store ends with no cat 1, yet a further
`GET /cats/1` answers 200 with the deleted entity instead of 404. -/
theorem C5_counterexample_stale_hit :
    runDelete1.db.findById 1 = none ∧
    runGet2.response = .ok tom.toJValue ∧
    runGet2.response ≠ .notFound "Cat not found" := by
  refine ⟨rfl, rfl, ?_⟩
  intro h
  exact Response.noConfusion h

/-- C5 amended: for every `GET /cats/{id}` request in which the cache
yields no value for `cat:{id}` (miss, expired, disabled, or backend
failure) and the store has no row with that id, the handler returns 404
"Cat not found", leaves the cache untouched, and issues no cache set. -/
theorem C5_notfound_not_cached (db : DB) (cm : CacheManager)
    (st : RedisState) (now : Nat) (failGet failSet : Bool) (cat_id : Nat)
    (hmiss : cm.get st now failGet ("cat:" ++ toString cat_id) = .null)
    (hnone : db.findById cat_id = none) :
    (get_cat_by_id db cm st now failGet failSet cat_id).response =
      .notFound "Cat not found" ∧
    (get_cat_by_id db cm st now failGet failSet cat_id).cache = st ∧
    ∀ k, Event.cacheSet k ∉ (get_cat_by_id db cm st now failGet failSet cat_id).trace := by
  refine ⟨?_, ?_, ?_⟩ <;> simp [get_cat_by_id, hmiss, hnone, JValue.isNull]

/-- Witness for C5 (amended) on an empty store and empty cache at id 7. -/
theorem C5_notfound_not_cached_witness :
    (get_cat_by_id ⟨[], 1⟩ cmOn stEmpty 0 false false 7).response =
      .notFound "Cat not found" ∧
    (get_cat_by_id ⟨[], 1⟩ cmOn stEmpty 0 false false 7).cache = stEmpty ∧
    Event.cacheSet "cat:7" ∉ (get_cat_by_id ⟨[], 1⟩ cmOn stEmpty 0 false false 7).trace := by
  have h := C5_notfound_not_cached ⟨[], 1⟩ cmOn stEmpty 0 false false 7 rfl rfl
  exact ⟨h.1, h.2.1, h.2.2 "cat:7"⟩

/-- C7: no cache adapter operation raises to its caller (each is a total
function here precisely because every backend call in src/cache.py sits
inside `try/except`); on a backend failure each degrades to its safe
default and leaves the backend state unchanged: `connect` ends
disconnected, `get` returns absent, `set`/`exists`/`delete`/`flush`
return `False`. -/
theorem C7_adapter_never_raises_safe_defaults (cm : CacheManager)
    (st : RedisState) (now ttl : Nat) (key : String) (v : JValue) :
    (cm.connect true).connected = false ∧
    (cm.connect true).enabled = cm.enabled ∧
    cm.get st now true key = .null ∧
    cm.set st now true key v ttl = (false, st) ∧
    cm.existsKey st now true key = false ∧
    cm.delete st now true key = (false, st) ∧
    cm.flush st true = (false, st) := by
  refine ⟨?_, ?_, ?_, ?_, ?_, ?_, ?_⟩ <;>
    cases hen : cm.enabled <;> cases hcon : cm.connected <;>
      simp [CacheManager.connect, CacheManager.get, CacheManager.set,
            CacheManager.existsKey, CacheManager.delete, CacheManager.flush,
            redisGet, redisSetex, redisExists, redisDelete, redisFlush,
            hen, hcon]

/-- C6: `get_or_set` returns the cached value without touching the
producer when one is present; on a miss it invokes the producer, stores
the producer's result under the key with the given ttl, and returns it;
and its result is an exception exactly when the producer was invoked and
the producer raised (backend failures `fg`/`fs` are swallowed). -/
theorem C6_get_or_set_spec (cm : CacheManager) (st : RedisState) (now : Nat)
    (fg fs : Bool) (key : String) (cb : Except PyErr JValue) (ttl : Nat) :
    ((cm.get st now fg key).isNull = false →
       cm.get_or_set st now fg fs key cb ttl =
         ⟨.ok (cm.get st now fg key), st, false⟩) ∧
    ((cm.get st now fg key).isNull = true →
       (cm.get_or_set st now fg fs key cb ttl).producerInvoked = true ∧
       (∀ e, cb = .error e →
          cm.get_or_set st now fg fs key cb ttl = ⟨.error e, st, true⟩) ∧
       (∀ r, cb = .ok r →
          cm.get_or_set st now fg fs key cb ttl =
            ⟨.ok r, (cm.set st now fs key r ttl).2, true⟩)) ∧
    ((∃ e, (cm.get_or_set st now fg fs key cb ttl).result = .error e) ↔
       ((cm.get_or_set st now fg fs key cb ttl).producerInvoked = true ∧
        ∃ e, cb = .error e)) := by
  cases hn : (cm.get st now fg key).isNull <;> cases cb <;>
    simp [CacheManager.get_or_set, hn]

/-- Witness for C6: a hit (`"k"` cached as `"v"`) never forces even a
raising producer, and a miss computes, stores and returns `"w"`. -/
theorem C6_get_or_set_spec_witness :
    cmOn.get_or_set ⟨[("k", .str "v", 10)]⟩ 0 false false "k"
        (.error (.producerError "boom")) 60 =
      ⟨.ok (.str "v"), ⟨[("k", .str "v", 10)]⟩, false⟩ ∧
    cmOn.get_or_set stEmpty 0 false false "k" (.ok (.str "w")) 60 =
      ⟨.ok (.str "w"), (cmOn.set stEmpty 0 false "k" (.str "w") 60).2, true⟩ := by
  constructor
  · have h := C6_get_or_set_spec cmOn ⟨[("k", .str "v", 10)]⟩ 0 false false "k"
      (.error (.producerError "boom")) 60
    exact h.1 rfl
  · have h := C6_get_or_set_spec cmOn stEmpty 0 false false "k"
      (.ok (.str "w")) 60
    exact ((h.2.1 rfl).2.2) (.str "w") rfl

/-- C8: with the cache disabled (`CACHE_ENABLED=false`), `get` returns
absent and `set`/`delete` return `False` — with the backend untouched:
the results do not depend on the backend `fail` outcome and the backend
state is returned unchanged — while entity CRUD still succeeds against
the store (create commits and returns the new row, delete returns its
confirmation and removes the rows, update and read of an existing row
return it). -/
theorem C8_disabled_cache (cm : CacheManager) (st : RedisState) (now : Nat)
    (fail : Bool) (key : String) (v : JValue) (ttl : Nat) (db : DB)
    (name : String) (age weight : Int) (breed : String) (cat_id : Nat)
    (patch : CatSchema) (cat : Cat) (hdis : cm.enabled = false) :
    cm.get st now fail key = .null ∧
    cm.set st now fail key v ttl = (false, st) ∧
    cm.delete st now fail key = (false, st) ∧
    (create_cat db cm st now fail name age weight breed).response =
      .ok (Cat.toJValue ⟨db.nextId, name, age, weight, breed⟩) ∧
    (create_cat db cm st now fail name age weight breed).db =
      ⟨db.cats ++ [⟨db.nextId, name, age, weight, breed⟩], db.nextId + 1⟩ ∧
    (delete_cat db cm st now fail cat_id).response =
      .ok (.obj [("message",
        .str ("Cat with id \x27" ++ toString cat_id ++ "\x27 was deleted"))]) ∧
    (delete_cat db cm st now fail cat_id).db =
      ⟨db.cats.filter (fun c => !(c.id == cat_id)), db.nextId⟩ ∧
    (db.findById cat_id = some cat →
       (update_cat db cm st now fail fail cat_id patch).response =
         .ok (applyPatch cat patch).toJValue) ∧
    (db.findById cat_id = some cat →
       (get_cat_by_id db cm st now fail fail cat_id).response =
         .ok cat.toJValue) := by
  refine ⟨?_, ?_, ?_, rfl, rfl, rfl, rfl, ?_, ?_⟩
  · simp [CacheManager.get, hdis]
  · simp [CacheManager.set, hdis]
  · simp [CacheManager.delete, hdis]
  · intro h; simp [update_cat, h]
  · intro h; simp [get_cat_by_id, CacheManager.get, hdis, JValue.isNull, h]

/-- Witness for C8 with `cmOff` on the §8 scenario store at id 1. -/
theorem C8_disabled_cache_witness :
    cmOff.get stEmpty 0 true "k" = .null ∧
    cmOff.set stEmpty 0 true "k" (.str "v") 60 = (false, stEmpty) ∧
    cmOff.delete stEmpty 0 true "k" = (false, stEmpty) ∧
    (create_cat dbTom cmOff stEmpty 0 true "Max" 2 5 "Maine").response =
      .ok (Cat.toJValue ⟨2, "Max", 2, 5, "Maine"⟩) ∧
    (update_cat dbTom cmOff stEmpty 0 true true 1
        ⟨none, some 4, none, none⟩).response =
      .ok (applyPatch tom ⟨none, some 4, none, none⟩).toJValue ∧
    (get_cat_by_id dbTom cmOff stEmpty 0 true true 1).response =
      .ok tom.toJValue := by
  have h := C8_disabled_cache cmOff stEmpty 0 true "k" (.str "v") 60 dbTom
    "Max" 2 5 "Maine" 1 ⟨none, some 4, none, none⟩ tom rfl
  exact ⟨h.1, h.2.1, h.2.2.1, h.2.2.2.1, h.2.2.2.2.2.2.2.1 rfl,
         h.2.2.2.2.2.2.2.2 rfl⟩

/-- C9: a JSON `null` is never served from the cache.  After
`set key None ttl`, `get key` returns absent (`None`) at every later
time — the stored `null` deserializes to `None`, which the caller cannot
tell from a miss — and `get_or_set` with a producer returning `None`
invokes the producer, and invokes it again on the very next call, since
it tests the cached result against `None`. -/
theorem C9_null_values_never_served (cm : CacheManager) (st : RedisState)
    (now now' ttl : Nat) (key : String)
    (hen : cm.enabled = true) (hcon : cm.connected = true) :
    cm.get (cm.set st now false key .null ttl).2 now' false key = .null ∧
    (cm.get st now false key = .null →
       (cm.get_or_set st now false false key (.ok .null) ttl).producerInvoked = true ∧
       (cm.get_or_set st now false false key (.ok .null) ttl).result = .ok .null ∧
       (cm.get_or_set
          (cm.get_or_set st now false false key (.ok .null) ttl).state
          now' false false key (.ok .null) ttl).producerInvoked = true) := by
  have ha : cm.get (cm.set st now false key .null ttl).2 now' false key = .null := by
    by_cases hlt : now' < now + ttl <;>
      simp [CacheManager.get, CacheManager.set, redisGet, redisSetex,
            RedisState.lookup, List.find?, hen, hcon, hlt]
  refine ⟨ha, ?_⟩
  intro hmiss
  refine ⟨?_, ?_, ?_⟩ <;>
    simp [CacheManager.get_or_set, hmiss, JValue.isNull, ha]

/-- Witness for C9 at `key = "k"`, empty backend, set at time 0 and
re-read at time 10 with ttl 60 (well before expiry). -/
theorem C9_null_values_never_served_witness :
    cmOn.get (cmOn.set stEmpty 0 false "k" .null 60).2 10 false "k" = .null ∧
    (cmOn.get_or_set stEmpty 0 false false "k" (.ok .null) 60).producerInvoked = true ∧
    (cmOn.get_or_set stEmpty 0 false false "k" (.ok .null) 60).result = .ok .null ∧
    (cmOn.get_or_set
       (cmOn.get_or_set stEmpty 0 false false "k" (.ok .null) 60).state
       10 false false "k" (.ok .null) 60).producerInvoked = true := by
  have h := C9_null_values_never_served cmOn stEmpty 0 10 60 "k" rfl rfl
  exact ⟨h.1, (h.2 rfl).1, (h.2 rfl).2.1, (h.2 rfl).2.2⟩

/-- C10: `DELETE /cats/{id}` never signals not-found: for every store
state — whether or not a row with that id exists — it returns the same
success confirmation message, and an immediately repeated delete of the
same id yields the same response (idempotence at the HTTP surface). -/
theorem C10_delete_idempotent (db : DB) (cm : CacheManager)
    (st : RedisState) (now : Nat) (fail : Bool) (cat_id : Nat) :
    (delete_cat db cm st now fail cat_id).response =
      .ok (.obj [("message",
        .str ("Cat with id \x27" ++ toString cat_id ++ "\x27 was deleted"))]) ∧
    (delete_cat (delete_cat db cm st now fail cat_id).db cm
        (delete_cat db cm st now fail cat_id).cache now fail cat_id).response =
      (delete_cat db cm st now fail cat_id).response :=
  ⟨rfl, rfl⟩

end CatApi
